import Mathlib

/-!
Verification of the block-execution engine in `crates/evm/src/execute.rs`.

The Rust module defines trait contracts (`Executor`, `BatchExecutor`,
`BlockExecutionStrategy`, `BlockExecutionStrategyFactory`) together with the
generic orchestration code (`GenericBlockExecutor`, `GenericExecutorProvider`,
and the provided bodies of `BatchExecutor::execute_and_verify_many` and
`BatchExecutor::execute_and_verify_batch`).

Shallow embedding conventions:

* A trait with methods taking `&mut self` becomes a structure of functions in
  which the receiver state (of an abstract type) is threaded explicitly: a
  method `fn m(&mut self, a: A) -> Result<B, E>` becomes `S → A → Except E (B × S)`.
* A Rust closure of type `FnMut(&State<DB>)` becomes a function
  `EvmSt → W → W` whose environment `W` is threaded explicitly; the closure
  receives only a shared reference, so it cannot change the strategy state.
* External types (blocks, receipts, requests, the revm `State` overlay, chain
  spec, EVM configuration, errors) are opaque type parameters: the code under
  verification never inspects them.
* `u64` gas counters become `Nat`; the executor performs no arithmetic on them.
-/

namespace RethExecute

/-- `BlockExecutionInput<'a, BlockWithSenders>`: a borrowed block together with
the cumulative total difficulty. -/
structure BlockExecutionInput (Blk Td : Type) where
  block : Blk
  totalDifficulty : Td

/-- `BlockExecutionOutput<Receipt>`: the bundle-state diff, the receipts, the
protocol requests and the cumulative gas used, as assembled by the executor. -/
structure BlockExecutionOutput (Bundle Rcpt Req : Type) where
  state : Bundle
  receipts : List Rcpt
  requests : List Req
  gasUsed : Nat
  deriving Repr, DecidableEq

/-- The `BlockExecutionStrategy<DB>` trait (execute.rs lines 188-212).  A
strategy value has the abstract type `S`; the `&mut self` stage methods thread
it.  `with_state_hook` is builder style (consumes and returns the strategy) and
`finish` consumes the strategy, returning only the bundle state. -/
structure BlockExecutionStrategy (S Blk Rcpt Req EvmSt Bundle Hook E : Type) where
  applyPreExecutionChanges : S → Except E S
  executeTransactions : S → Blk → Except E ((List Rcpt × Nat) × S)
  applyPostExecutionChanges : S → Except E (List Req × S)
  stateRef : S → EvmSt
  withStateHook : Option Hook → S → S
  finish : S → Bundle

/-- The `BlockExecutionStrategyFactory` trait (execute.rs lines 167-185).  The
associated `Strategy` is represented by its method table; the bound
`type Error: From<ProviderError> + From<Strategy::Error>` is represented by the
two conversion functions into the factory error type `EF` (`P` is the storage
error type `ProviderError`, `ES` the strategy error type). -/
structure BlockExecutionStrategyFactory
    (S Blk Td Rcpt Req EvmSt Bundle Hook P EF ES : Type) where
  strategy : BlockExecutionStrategy S Blk Rcpt Req EvmSt Bundle Hook ES
  fromProviderError : P → EF
  fromStrategyError : ES → EF
  create : Blk → Td → Except EF S

/-- The revm `State<DB>` overlay as configured through its builder: the backing
database handle plus the two builder switches the provider sets.
Modelled from the spec: the State Overlay itself is an external collaborator
("bundle diff layered on top of a read-through cache"); only its construction
flags are observable here. -/
structure State (DB : Type) where
  database : DB
  bundleUpdate : Bool
  stateClear : Bool
  deriving Repr, DecidableEq

/-- Modelled from the spec: the revm `StateBuilder` consumed by
`State::builder()...build()`; tracks the database handle and the
bundle-update / state-clear switches. -/
structure StateBuilder (DB : Type) where
  database : DB
  bundleUpdate : Bool
  stateClear : Bool

/-- Modelled from the spec: `State::builder()` starts from the default
configuration (no database yet — modelled by `Unit` —, bundle updates off,
state clearing on). -/
def State.builder : StateBuilder Unit :=
  { database := (), bundleUpdate := false, stateClear := true }

/-- `StateBuilder::with_database`: installs the database handle. -/
def StateBuilder.withDatabase {DB0 DB : Type} (b : StateBuilder DB0) (db : DB) :
    StateBuilder DB :=
  { database := db, bundleUpdate := b.bundleUpdate, stateClear := b.stateClear }

/-- `StateBuilder::with_bundle_update`: enables bundle-update accumulation. -/
def StateBuilder.withBundleUpdate {DB : Type} (b : StateBuilder DB) : StateBuilder DB :=
  { b with bundleUpdate := true }

/-- `StateBuilder::without_state_clear`: disables state clearing. -/
def StateBuilder.withoutStateClear {DB : Type} (b : StateBuilder DB) : StateBuilder DB :=
  { b with stateClear := false }

/-- `StateBuilder::build`: produces the configured `State` overlay. -/
def StateBuilder.build {DB : Type} (b : StateBuilder DB) : State DB :=
  { database := b.database, bundleUpdate := b.bundleUpdate, stateClear := b.stateClear }

/-- `GenericBlockExecutor` (execute.rs lines 256-265): the strategy factory
reference, the chain spec, the EVM configuration and a `State` overlay. -/
structure GenericBlockExecutor (SF CS EC DB : Type) where
  strategyFactory : SF
  chainSpec : CS
  evmConfig : EC
  state : State DB

/-- `GenericExecutorProvider` (execute.rs lines 216-220). -/
structure GenericExecutorProvider (SF CS EC : Type) where
  strategyFactory : SF
  chainSpec : CS
  evmConfig : EC

/-- `GenericExecutorProvider::executor` (execute.rs lines 240-251): builds a
`GenericBlockExecutor` over a fresh overlay
`State::builder().with_database(db).with_bundle_update().without_state_clear().build()`. -/
def GenericExecutorProvider.executor {SF CS EC DB : Type}
    (p : GenericExecutorProvider SF CS EC) (db : DB) :
    GenericBlockExecutor SF CS EC DB :=
  { strategyFactory := p.strategyFactory
    chainSpec := p.chainSpec
    evmConfig := p.evmConfig
    state := (((State.builder).withDatabase db).withBundleUpdate).withoutStateClear.build }

variable {S Blk Td Rcpt Req EvmSt Bundle Hook P EF ES CS EC DB W : Type}

/-- `GenericBlockExecutor::execute` (execute.rs lines 293-304): create the
strategy, run the four stages in order, assemble the output.  Each `?` on a
stage result converts the strategy error via the `From` bound. -/
def GenericBlockExecutor.execute
    (ex : GenericBlockExecutor
      (BlockExecutionStrategyFactory S Blk Td Rcpt Req EvmSt Bundle Hook P EF ES) CS EC DB)
    (input : BlockExecutionInput Blk Td) :
    Except EF (BlockExecutionOutput Bundle Rcpt Req) :=
  let fac := ex.strategyFactory
  match fac.create input.block input.totalDifficulty with
  | .error e => .error e
  | .ok strategy =>
    match fac.strategy.applyPreExecutionChanges strategy with
    | .error e => .error (fac.fromStrategyError e)
    | .ok s1 =>
      match fac.strategy.executeTransactions s1 input.block with
      | .error e => .error (fac.fromStrategyError e)
      | .ok ((receipts, gasUsed), s2) =>
        match fac.strategy.applyPostExecutionChanges s2 with
        | .error e => .error (fac.fromStrategyError e)
        | .ok (requests, s3) =>
          .ok { state := fac.strategy.finish s3, receipts := receipts
                requests := requests, gasUsed := gasUsed }

/-- `GenericBlockExecutor::execute_with_state_witness` (execute.rs lines
306-328): identical staging, but between the post-execution stage and `finish`
the witness closure is applied to `state_ref()`.  The closure environment `W`
is threaded and returned so that the closure's effect is observable. -/
def GenericBlockExecutor.executeWithStateWitness
    (ex : GenericBlockExecutor
      (BlockExecutionStrategyFactory S Blk Td Rcpt Req EvmSt Bundle Hook P EF ES) CS EC DB)
    (input : BlockExecutionInput Blk Td)
    (witness : EvmSt → W → W) (w : W) :
    Except EF (BlockExecutionOutput Bundle Rcpt Req) × W :=
  let fac := ex.strategyFactory
  match fac.create input.block input.totalDifficulty with
  | .error e => (.error e, w)
  | .ok strategy =>
    match fac.strategy.applyPreExecutionChanges strategy with
    | .error e => (.error (fac.fromStrategyError e), w)
    | .ok s1 =>
      match fac.strategy.executeTransactions s1 input.block with
      | .error e => (.error (fac.fromStrategyError e), w)
      | .ok ((receipts, gasUsed), s2) =>
        match fac.strategy.applyPostExecutionChanges s2 with
        | .error e => (.error (fac.fromStrategyError e), w)
        | .ok (requests, s3) =>
          let w1 := witness (fac.strategy.stateRef s3) w
          (.ok { state := fac.strategy.finish s3, receipts := receipts
                 requests := requests, gasUsed := gasUsed }, w1)

/-- `GenericBlockExecutor::execute_with_state_hook` (execute.rs lines 330-352):
the hook is installed on the freshly created strategy via `with_state_hook`
before any stage runs; staging is otherwise identical to `execute`. -/
def GenericBlockExecutor.executeWithStateHook
    (ex : GenericBlockExecutor
      (BlockExecutionStrategyFactory S Blk Td Rcpt Req EvmSt Bundle Hook P EF ES) CS EC DB)
    (input : BlockExecutionInput Blk Td)
    (stateHook : Hook) :
    Except EF (BlockExecutionOutput Bundle Rcpt Req) :=
  let fac := ex.strategyFactory
  match fac.create input.block input.totalDifficulty with
  | .error e => .error e
  | .ok created =>
    let strategy := fac.strategy.withStateHook (some stateHook) created
    match fac.strategy.applyPreExecutionChanges strategy with
    | .error e => .error (fac.fromStrategyError e)
    | .ok s1 =>
      match fac.strategy.executeTransactions s1 input.block with
      | .error e => .error (fac.fromStrategyError e)
      | .ok ((receipts, gasUsed), s2) =>
        match fac.strategy.applyPostExecutionChanges s2 with
        | .error e => .error (fac.fromStrategyError e)
        | .ok (requests, s3) =>
          .ok { state := fac.strategy.finish s3, receipts := receipts
                requests := requests, gasUsed := gasUsed }

/-- The `BatchExecutor<DB>` trait (execute.rs lines 64-120): the abstract
per-block method `execute_and_verify_one` (a `&mut self` method, so it returns
its result paired with the updated internal state `M`), the consuming
`finalize`, and the advisory configuration methods. `PM` is `PruneModes`. -/
structure BatchExecutorImpl (M Inp Out E PM : Type) where
  executeAndVerifyOne : M → Inp → Except E Unit × M
  finalize : M → Out
  setTip : M → Nat → M
  setPruneModes : M → PM → M
  sizeHint : M → Option Nat

variable {M Inp Out E PM : Type}

/-- The provided body of `BatchExecutor::execute_and_verify_many` (execute.rs
lines 80-88): `for input in inputs { self.execute_and_verify_one(input)?; }`.
The first error aborts the loop; the internal state is whatever the failing
call left behind. -/
def BatchExecutorImpl.executeAndVerifyMany (be : BatchExecutorImpl M Inp Out E PM) :
    M → List Inp → Except E Unit × M
  | m, [] => (.ok (), m)
  | m, input :: rest =>
    match be.executeAndVerifyOne m input with
    | (.ok _, m2) => be.executeAndVerifyMany m2 rest
    | (.error e, m2) => (.error e, m2)

/-- The provided body of `BatchExecutor::execute_and_verify_batch` (execute.rs
lines 94-101): `self.execute_and_verify_many(batch)?; Ok(self.finalize())`. -/
def BatchExecutorImpl.executeAndVerifyBatch (be : BatchExecutorImpl M Inp Out E PM)
    (m : M) (batch : List Inp) : Except E Out :=
  match be.executeAndVerifyMany m batch with
  | (.ok _, m2) => .ok (be.finalize m2)
  | (.error e, _) => .error e

/-- The possible directions of error conversion between the factory error type,
the strategy error type, the storage error type (`ProviderError`) and the
engine's generic error kind (`BlockExecutionError`). -/
inductive ErrorConv where
  | providerIntoFactory
  | strategyIntoFactory
  | factoryIntoProvider
  | factoryIntoEngine
  deriving DecidableEq, Repr

/-- The conversions required by the trait bound on
`BlockExecutionStrategyFactory::Error` (execute.rs lines 175-177):
`From<ProviderError> + From<<Self::Strategy as BlockExecutionStrategy<_>>::Error>`.
Both are conversions INTO the factory error type; the bound requires no
conversion out of it (the remaining bound, `core::error::Error`, is not a
conversion between these types). -/
def strategyFactoryErrorBound : List ErrorConv :=
  [ErrorConv.providerIntoFactory, ErrorConv.strategyIntoFactory]

/-- Stage events used to instrument a strategy: every attempted call of the
factory's `create`, of a stage method, of `with_state_hook`, or of `finish`
records one event. -/
inductive StageEv where
  | create
  | hookInstall
  | preExec
  | txs
  | postExec
  | finishEv
  deriving DecidableEq, Repr

/-- Instruments a strategy: the strategy state carries the list of events so
far; each method appends its event (on failure the event list travels with the
error, on `state_ref` the list observed at that moment travels with the state
reference, and `finish` folds it into the returned bundle). -/
def instrumentStrategy
    (st : BlockExecutionStrategy S Blk Rcpt Req EvmSt Bundle Hook ES) :
    BlockExecutionStrategy (S × List StageEv) Blk Rcpt Req
      (EvmSt × List StageEv) (Bundle × List StageEv) Hook (ES × List StageEv) where
  applyPreExecutionChanges := fun sl =>
    match st.applyPreExecutionChanges sl.1 with
    | .ok s2 => .ok (s2, sl.2 ++ [StageEv.preExec])
    | .error e => .error (e, sl.2 ++ [StageEv.preExec])
  executeTransactions := fun sl b =>
    match st.executeTransactions sl.1 b with
    | .ok (rg, s2) => .ok (rg, (s2, sl.2 ++ [StageEv.txs]))
    | .error e => .error (e, sl.2 ++ [StageEv.txs])
  applyPostExecutionChanges := fun sl =>
    match st.applyPostExecutionChanges sl.1 with
    | .ok (q, s2) => .ok (q, (s2, sl.2 ++ [StageEv.postExec]))
    | .error e => .error (e, sl.2 ++ [StageEv.postExec])
  stateRef := fun sl => (st.stateRef sl.1, sl.2)
  withStateHook := fun h sl => (st.withStateHook h sl.1, sl.2 ++ [StageEv.hookInstall])
  finish := fun sl => (st.finish sl.1, sl.2 ++ [StageEv.finishEv])

/-- Instruments a factory: `create` starts the event list, the error
conversions carry the list along unchanged. -/
def instrumentFactory
    (fac : BlockExecutionStrategyFactory S Blk Td Rcpt Req EvmSt Bundle Hook P EF ES) :
    BlockExecutionStrategyFactory (S × List StageEv) Blk Td Rcpt Req
      (EvmSt × List StageEv) (Bundle × List StageEv) Hook P
      (EF × List StageEv) (ES × List StageEv) where
  strategy := instrumentStrategy fac.strategy
  fromProviderError := fun p => (fac.fromProviderError p, [])
  fromStrategyError := fun el => (fac.fromStrategyError el.1, el.2)
  create := fun b td =>
    match fac.create b td with
    | .ok s => .ok (s, [StageEv.create])
    | .error e => .error (e, [StageEv.create])

/-! Concrete instantiations used to evaluate the theorems on explicit inputs. -/

/-- A concrete strategy over `Nat` strategy state: every stage succeeds,
`execute_transactions` returns receipts `[7]` and gas `21`,
`apply_post_execution_changes` returns requests `[9]`, `finish` returns ten
times the final strategy state. -/
def natStrategy : BlockExecutionStrategy Nat Nat Nat Nat Nat Nat Unit Nat where
  applyPreExecutionChanges := fun s => .ok (s + 1)
  executeTransactions := fun s _b => .ok (([7], 21), s + 1)
  applyPostExecutionChanges := fun s => .ok ([9], s + 1)
  stateRef := fun s => s
  withStateHook := fun _h s => s
  finish := fun s => s * 10

/-- A concrete factory producing `natStrategy` values; error conversions add
distinct offsets so the conversion applied to an error is visible. -/
def natFactory : BlockExecutionStrategyFactory Nat Nat Nat Nat Nat Nat Nat Unit Nat Nat Nat where
  strategy := natStrategy
  fromProviderError := fun p => p + 100
  fromStrategyError := fun e => e + 200
  create := fun _b _td => .ok 0

/-- A factory whose `create` fails with error `5`. -/
def createFailFactory : BlockExecutionStrategyFactory Nat Nat Nat Nat Nat Nat Nat Unit Nat Nat Nat :=
  { natFactory with create := fun _b _td => .error 5 }

/-- A factory whose strategy fails in `apply_pre_execution_changes` with `3`. -/
def preFailFactory : BlockExecutionStrategyFactory Nat Nat Nat Nat Nat Nat Nat Unit Nat Nat Nat :=
  { natFactory with strategy :=
      { natStrategy with applyPreExecutionChanges := fun _s => .error 3 } }

/-- A factory whose strategy fails in `execute_transactions` with `4`. -/
def txsFailFactory : BlockExecutionStrategyFactory Nat Nat Nat Nat Nat Nat Nat Unit Nat Nat Nat :=
  { natFactory with strategy :=
      { natStrategy with executeTransactions := fun _s _b => .error 4 } }

/-- A factory whose strategy fails in `apply_post_execution_changes` with `6`. -/
def postFailFactory : BlockExecutionStrategyFactory Nat Nat Nat Nat Nat Nat Nat Unit Nat Nat Nat :=
  { natFactory with strategy :=
      { natStrategy with applyPostExecutionChanges := fun _s => .error 6 } }

/-- A concrete overlay value for the executor record. -/
def natOverlay : State Nat :=
  { database := 0, bundleUpdate := true, stateClear := false }

/-- A concrete batch executor over an accumulated `List Nat` state: input `0`
fails verification leaving the state untouched, any other input appends. -/
def natBatch : BatchExecutorImpl (List Nat) Nat (List Nat) Unit Unit where
  executeAndVerifyOne := fun m i =>
    if i = 0 then (.error (), m) else (.ok (), m ++ [i])
  finalize := fun m => m
  setTip := fun m _ => m
  setPruneModes := fun m _ => m
  sizeHint := fun m => some m.length

/-! Helper lemmas: one per control-flow path of the three execution variants. -/

variable (fac : BlockExecutionStrategyFactory S Blk Td Rcpt Req EvmSt Bundle Hook P EF ES)
variable (cs : CS) (ec : EC) (ov : State DB)
variable (input : BlockExecutionInput Blk Td)

theorem execute_ok (s0 s1 s2 s3 : S) (rs : List Rcpt) (g : Nat) (qs : List Req)
    (hc : fac.create input.block input.totalDifficulty = .ok s0)
    (hp : fac.strategy.applyPreExecutionChanges s0 = .ok s1)
    (ht : fac.strategy.executeTransactions s1 input.block = .ok ((rs, g), s2))
    (hq : fac.strategy.applyPostExecutionChanges s2 = .ok (qs, s3)) :
    (GenericBlockExecutor.mk fac cs ec ov).execute input =
      .ok { state := fac.strategy.finish s3, receipts := rs
            requests := qs, gasUsed := g } := by
  simp [GenericBlockExecutor.execute, hc, hp, ht, hq]

theorem execute_err_create (e : EF)
    (hc : fac.create input.block input.totalDifficulty = .error e) :
    (GenericBlockExecutor.mk fac cs ec ov).execute input = .error e := by
  simp [GenericBlockExecutor.execute, hc]

theorem execute_err_pre (s0 : S) (e : ES)
    (hc : fac.create input.block input.totalDifficulty = .ok s0)
    (hp : fac.strategy.applyPreExecutionChanges s0 = .error e) :
    (GenericBlockExecutor.mk fac cs ec ov).execute input =
      .error (fac.fromStrategyError e) := by
  simp [GenericBlockExecutor.execute, hc, hp]

theorem execute_err_txs (s0 s1 : S) (e : ES)
    (hc : fac.create input.block input.totalDifficulty = .ok s0)
    (hp : fac.strategy.applyPreExecutionChanges s0 = .ok s1)
    (ht : fac.strategy.executeTransactions s1 input.block = .error e) :
    (GenericBlockExecutor.mk fac cs ec ov).execute input =
      .error (fac.fromStrategyError e) := by
  simp [GenericBlockExecutor.execute, hc, hp, ht]

theorem execute_err_post (s0 s1 s2 : S) (rs : List Rcpt) (g : Nat) (e : ES)
    (hc : fac.create input.block input.totalDifficulty = .ok s0)
    (hp : fac.strategy.applyPreExecutionChanges s0 = .ok s1)
    (ht : fac.strategy.executeTransactions s1 input.block = .ok ((rs, g), s2))
    (hq : fac.strategy.applyPostExecutionChanges s2 = .error e) :
    (GenericBlockExecutor.mk fac cs ec ov).execute input =
      .error (fac.fromStrategyError e) := by
  simp [GenericBlockExecutor.execute, hc, hp, ht, hq]

theorem executeWithStateWitness_ok (witness : EvmSt → W → W) (w : W)
    (s0 s1 s2 s3 : S) (rs : List Rcpt) (g : Nat) (qs : List Req)
    (hc : fac.create input.block input.totalDifficulty = .ok s0)
    (hp : fac.strategy.applyPreExecutionChanges s0 = .ok s1)
    (ht : fac.strategy.executeTransactions s1 input.block = .ok ((rs, g), s2))
    (hq : fac.strategy.applyPostExecutionChanges s2 = .ok (qs, s3)) :
    (GenericBlockExecutor.mk fac cs ec ov).executeWithStateWitness input witness w =
      (.ok { state := fac.strategy.finish s3, receipts := rs
             requests := qs, gasUsed := g },
       witness (fac.strategy.stateRef s3) w) := by
  simp [GenericBlockExecutor.executeWithStateWitness, hc, hp, ht, hq]

theorem executeWithStateWitness_err_create (witness : EvmSt → W → W) (w : W) (e : EF)
    (hc : fac.create input.block input.totalDifficulty = .error e) :
    (GenericBlockExecutor.mk fac cs ec ov).executeWithStateWitness input witness w =
      (.error e, w) := by
  simp [GenericBlockExecutor.executeWithStateWitness, hc]

theorem executeWithStateWitness_err_pre (witness : EvmSt → W → W) (w : W) (s0 : S) (e : ES)
    (hc : fac.create input.block input.totalDifficulty = .ok s0)
    (hp : fac.strategy.applyPreExecutionChanges s0 = .error e) :
    (GenericBlockExecutor.mk fac cs ec ov).executeWithStateWitness input witness w =
      (.error (fac.fromStrategyError e), w) := by
  simp [GenericBlockExecutor.executeWithStateWitness, hc, hp]

theorem executeWithStateWitness_err_txs (witness : EvmSt → W → W) (w : W)
    (s0 s1 : S) (e : ES)
    (hc : fac.create input.block input.totalDifficulty = .ok s0)
    (hp : fac.strategy.applyPreExecutionChanges s0 = .ok s1)
    (ht : fac.strategy.executeTransactions s1 input.block = .error e) :
    (GenericBlockExecutor.mk fac cs ec ov).executeWithStateWitness input witness w =
      (.error (fac.fromStrategyError e), w) := by
  simp [GenericBlockExecutor.executeWithStateWitness, hc, hp, ht]

theorem executeWithStateWitness_err_post (witness : EvmSt → W → W) (w : W)
    (s0 s1 s2 : S) (rs : List Rcpt) (g : Nat) (e : ES)
    (hc : fac.create input.block input.totalDifficulty = .ok s0)
    (hp : fac.strategy.applyPreExecutionChanges s0 = .ok s1)
    (ht : fac.strategy.executeTransactions s1 input.block = .ok ((rs, g), s2))
    (hq : fac.strategy.applyPostExecutionChanges s2 = .error e) :
    (GenericBlockExecutor.mk fac cs ec ov).executeWithStateWitness input witness w =
      (.error (fac.fromStrategyError e), w) := by
  simp [GenericBlockExecutor.executeWithStateWitness, hc, hp, ht, hq]

theorem executeWithStateHook_ok (stateHook : Hook)
    (s0 s1 s2 s3 : S) (rs : List Rcpt) (g : Nat) (qs : List Req)
    (hc : fac.create input.block input.totalDifficulty = .ok s0)
    (hp : fac.strategy.applyPreExecutionChanges
      (fac.strategy.withStateHook (some stateHook) s0) = .ok s1)
    (ht : fac.strategy.executeTransactions s1 input.block = .ok ((rs, g), s2))
    (hq : fac.strategy.applyPostExecutionChanges s2 = .ok (qs, s3)) :
    (GenericBlockExecutor.mk fac cs ec ov).executeWithStateHook input stateHook =
      .ok { state := fac.strategy.finish s3, receipts := rs
            requests := qs, gasUsed := g } := by
  simp [GenericBlockExecutor.executeWithStateHook, hc, hp, ht, hq]

theorem executeWithStateHook_err_create (stateHook : Hook) (e : EF)
    (hc : fac.create input.block input.totalDifficulty = .error e) :
    (GenericBlockExecutor.mk fac cs ec ov).executeWithStateHook input stateHook =
      .error e := by
  simp [GenericBlockExecutor.executeWithStateHook, hc]

theorem executeWithStateHook_err_pre (stateHook : Hook) (s0 : S) (e : ES)
    (hc : fac.create input.block input.totalDifficulty = .ok s0)
    (hp : fac.strategy.applyPreExecutionChanges
      (fac.strategy.withStateHook (some stateHook) s0) = .error e) :
    (GenericBlockExecutor.mk fac cs ec ov).executeWithStateHook input stateHook =
      .error (fac.fromStrategyError e) := by
  simp [GenericBlockExecutor.executeWithStateHook, hc, hp]

theorem executeWithStateHook_err_txs (stateHook : Hook) (s0 s1 : S) (e : ES)
    (hc : fac.create input.block input.totalDifficulty = .ok s0)
    (hp : fac.strategy.applyPreExecutionChanges
      (fac.strategy.withStateHook (some stateHook) s0) = .ok s1)
    (ht : fac.strategy.executeTransactions s1 input.block = .error e) :
    (GenericBlockExecutor.mk fac cs ec ov).executeWithStateHook input stateHook =
      .error (fac.fromStrategyError e) := by
  simp [GenericBlockExecutor.executeWithStateHook, hc, hp, ht]

theorem executeWithStateHook_err_post (stateHook : Hook) (s0 s1 s2 : S)
    (rs : List Rcpt) (g : Nat) (e : ES)
    (hc : fac.create input.block input.totalDifficulty = .ok s0)
    (hp : fac.strategy.applyPreExecutionChanges
      (fac.strategy.withStateHook (some stateHook) s0) = .ok s1)
    (ht : fac.strategy.executeTransactions s1 input.block = .ok ((rs, g), s2))
    (hq : fac.strategy.applyPostExecutionChanges s2 = .error e) :
    (GenericBlockExecutor.mk fac cs ec ov).executeWithStateHook input stateHook =
      .error (fac.fromStrategyError e) := by
  simp [GenericBlockExecutor.executeWithStateHook, hc, hp, ht, hq]

theorem executeWithStateWitness_error_env (witness : EvmSt → W → W) (w : W) (e : EF)
    (h : ((GenericBlockExecutor.mk fac cs ec ov).executeWithStateWitness
      input witness w).1 = .error e) :
    ((GenericBlockExecutor.mk fac cs ec ov).executeWithStateWitness
      input witness w).2 = w := by
  rcases hc : fac.create input.block input.totalDifficulty with e0 | s0
  · simp [GenericBlockExecutor.executeWithStateWitness, hc]
  · rcases hp : fac.strategy.applyPreExecutionChanges s0 with e1 | s1
    · simp [GenericBlockExecutor.executeWithStateWitness, hc, hp]
    · rcases ht : fac.strategy.executeTransactions s1 input.block with e2 | p
      · simp [GenericBlockExecutor.executeWithStateWitness, hc, hp, ht]
      · obtain ⟨⟨rs, g⟩, s2⟩ := p
        rcases hq : fac.strategy.applyPostExecutionChanges s2 with e3 | q
        · simp [GenericBlockExecutor.executeWithStateWitness, hc, hp, ht, hq]
        · obtain ⟨qs, s3⟩ := q
          rw [executeWithStateWitness_ok fac cs ec ov input witness w
            s0 s1 s2 s3 rs g qs hc hp ht hq] at h
          simp at h

theorem executeAndVerifyMany_congr (be be2 : BatchExecutorImpl M Inp Out E PM)
    (h : be.executeAndVerifyOne = be2.executeAndVerifyOne) (m : M) (l : List Inp) :
    be.executeAndVerifyMany m l = be2.executeAndVerifyMany m l := by
  induction l generalizing m with
  | nil => rfl
  | cons a as ih =>
    simp only [BatchExecutorImpl.executeAndVerifyMany, h]
    cases h2 : be2.executeAndVerifyOne m a with
    | mk r m3 =>
      cases r with
      | ok u => simpa using ih m3
      | error e2 => rfl

/-! Claim theorems. -/

/-- C3: for every input and every witness closure (closures receive only a
read-only reference to the strategy state, so every closure here only reads),
`execute_with_state_witness` returns a result identical to `execute` on the
same input: equal output on success and equal error on failure. -/
theorem execute_with_state_witness_refines_execute (witness : EvmSt → W → W) (w : W) :
    ((GenericBlockExecutor.mk fac cs ec ov).executeWithStateWitness input witness w).1 =
      (GenericBlockExecutor.mk fac cs ec ov).execute input := by
  rcases hc : fac.create input.block input.totalDifficulty with e0 | s0
  · simp [GenericBlockExecutor.executeWithStateWitness, GenericBlockExecutor.execute, hc]
  · rcases hp : fac.strategy.applyPreExecutionChanges s0 with e1 | s1
    · simp [GenericBlockExecutor.executeWithStateWitness, GenericBlockExecutor.execute, hc, hp]
    · rcases ht : fac.strategy.executeTransactions s1 input.block with e2 | p
      · simp [GenericBlockExecutor.executeWithStateWitness, GenericBlockExecutor.execute,
          hc, hp, ht]
      · obtain ⟨⟨rs, g⟩, s2⟩ := p
        rcases hq : fac.strategy.applyPostExecutionChanges s2 with e3 | q
        · simp [GenericBlockExecutor.executeWithStateWitness, GenericBlockExecutor.execute,
            hc, hp, ht, hq]
        · obtain ⟨qs, s3⟩ := q
          simp [GenericBlockExecutor.executeWithStateWitness, GenericBlockExecutor.execute,
            hc, hp, ht, hq]

/-- C8: `GenericExecutorProvider::executor` builds an executor whose overlay is
freshly constructed from the given database handle with bundle updates enabled
and state clearing disabled, and which carries over the provider's strategy
factory, chain spec and EVM configuration; the overlay depends only on the
database handle passed to that very call, so distinct calls yield independent
overlays. -/
theorem executor_builds_fresh_overlay {SF : Type}
    (p : GenericExecutorProvider SF CS EC) (db : DB) :
    (p.executor db).state = { database := db, bundleUpdate := true, stateClear := false } ∧
    (p.executor db).strategyFactory = p.strategyFactory ∧
    (p.executor db).chainSpec = p.chainSpec ∧
    (p.executor db).evmConfig = p.evmConfig :=
  ⟨rfl, rfl, rfl, rfl⟩

/-- C9 counterexample: the trait bound on the factory's error type does not
require conversions out of the factory error type — neither into the engine's
generic error kind nor into the storage error kind; the required conversions go
in the opposite direction. -/
theorem factory_error_into_conversions_not_required :
    ¬ (ErrorConv.factoryIntoEngine ∈ strategyFactoryErrorBound ∧
       ErrorConv.factoryIntoProvider ∈ strategyFactoryErrorBound) := by
  decide

/-- C9 amended: the trait bound on the factory's error type requires
conversions INTO it: from the caller's storage error kind (`ProviderError`) and
from the strategy's error type; accordingly every factory value supplies the
two conversion functions. -/
theorem factory_error_bound_conversions :
    (ErrorConv.providerIntoFactory ∈ strategyFactoryErrorBound ∧
     ErrorConv.strategyIntoFactory ∈ strategyFactoryErrorBound) ∧
    ∀ (fac2 : BlockExecutionStrategyFactory S Blk Td Rcpt Req EvmSt Bundle Hook P EF ES),
      Nonempty ((P → EF) × (ES → EF)) :=
  ⟨by decide, fun fac2 => ⟨⟨fac2.fromProviderError, fac2.fromStrategyError⟩⟩⟩

/-- C10: `execute_and_verify_many` on the empty input sequence returns `Ok(())`
and leaves the accumulated state exactly as it was, for every batch executor —
in particular without invoking `execute_and_verify_one`. -/
theorem execute_and_verify_many_nil (be : BatchExecutorImpl M Inp Out E PM) (m : M) :
    be.executeAndVerifyMany m [] = (.ok (), m) :=
  rfl

/-- C7: `execute_and_verify_batch` is exactly `execute_and_verify_many`
followed by `finalize`: on success it returns `finalize` of the accumulated
state, and on failure it returns the error of `execute_and_verify_many` with a
result independent of `finalize` (so `finalize` is never consulted). -/
theorem execute_and_verify_batch_is_many_then_finalize
    (be : BatchExecutorImpl M Inp Out E PM) (m : M) (batch : List Inp) :
    (∀ m2 : M, be.executeAndVerifyMany m batch = (.ok (), m2) →
      be.executeAndVerifyBatch m batch = .ok (be.finalize m2)) ∧
    (∀ (e : E) (m2 : M), be.executeAndVerifyMany m batch = (.error e, m2) →
      ∀ fin2 : M → Out,
        BatchExecutorImpl.executeAndVerifyBatch { be with finalize := fin2 } m batch =
          .error e) := by
  constructor
  · intro m2 hm
    simp [BatchExecutorImpl.executeAndVerifyBatch, hm]
  · intro e m2 hm fin2
    have hcongr := executeAndVerifyMany_congr
      { be with finalize := fin2 } be rfl m batch
    simp [BatchExecutorImpl.executeAndVerifyBatch, hcongr, hm]

/-- Evaluates C7 at a concrete batch executor: a succeeding batch yields the
finalized accumulated state, a failing batch yields the error no matter what
`finalize` would return. -/
theorem execute_and_verify_batch_is_many_then_finalize_witness :
    natBatch.executeAndVerifyBatch [] [1, 2] = .ok [1, 2] ∧
    BatchExecutorImpl.executeAndVerifyBatch
      { natBatch with finalize := fun _m => [42] } [] [1, 0] = .error () :=
  ⟨(execute_and_verify_batch_is_many_then_finalize natBatch [] [1, 2]).1 [1, 2] rfl,
   (execute_and_verify_batch_is_many_then_finalize natBatch [] [1, 0]).2 () [1] rfl
     (fun _m => [42])⟩

/-- C2: `execute_and_verify_many` processes the inputs in sequence order and
aborts on the first failure: when the blocks of `pre` succeed and block `b`
fails, the call returns that error, the remaining inputs are not processed
(the result does not depend on `rest`), and the accumulated state equals the
state after the successful prefix alone — given the contract that a failing
`execute_and_verify_one` does not mutate the externally visible state. -/
theorem execute_and_verify_many_fail_fast
    (be : BatchExecutorImpl M Inp Out E PM)
    (hone : ∀ (m : M) (i : Inp) (e : E), (be.executeAndVerifyOne m i).1 = .error e →
      (be.executeAndVerifyOne m i).2 = m)
    (m m2 : M) (pre : List Inp) (b : Inp) (rest : List Inp) (e : E)
    (hpre : be.executeAndVerifyMany m pre = (.ok (), m2))
    (hb : (be.executeAndVerifyOne m2 b).1 = .error e) :
    be.executeAndVerifyMany m (pre ++ b :: rest) = (.error e, m2) := by
  induction pre generalizing m with
  | nil =>
    have hm : m = m2 := by
      simpa [BatchExecutorImpl.executeAndVerifyMany] using hpre
    subst hm
    have h3 := hone m b e hb
    cases h2 : be.executeAndVerifyOne m b with
    | mk r m3 =>
      rw [h2] at hb h3
      simp only at hb h3
      subst h3
      simp [BatchExecutorImpl.executeAndVerifyMany, h2, hb]
  | cons a asl ih =>
    rw [List.cons_append]
    cases h2 : be.executeAndVerifyOne m a with
    | mk r m3 =>
      cases r with
      | ok u =>
        have hpre2 : be.executeAndVerifyMany m3 asl = (.ok (), m2) := by
          simpa [BatchExecutorImpl.executeAndVerifyMany, h2] using hpre
        simpa [BatchExecutorImpl.executeAndVerifyMany, h2] using ih m3 hpre2
      | error e2 =>
        exfalso
        simp [BatchExecutorImpl.executeAndVerifyMany, h2] at hpre

/-- Evaluates C2 at a concrete batch executor: blocks `1, 2` succeed, block `0`
fails, block `3` is never reached; the final state is the one accumulated by
the successful prefix. -/
theorem execute_and_verify_many_fail_fast_witness :
    natBatch.executeAndVerifyMany [] ([1, 2] ++ 0 :: [3]) = (.error (), [1, 2]) :=
  execute_and_verify_many_fail_fast natBatch
    (by
      intro m i e h
      by_cases hi : i = 0
      · simp [natBatch, hi]
      · simp [natBatch, hi] at h)
    [] [1, 2] [1, 2] 0 [3] () rfl rfl

/-- C1: a successful `execute` creates exactly one strategy via the factory and
invokes each of the four stage methods exactly once, in the strict order
`apply_pre_execution_changes`, `execute_transactions`,
`apply_post_execution_changes`, `finish` — the instrumented event log is
exactly that sequence, with no event skipped or repeated — and returns an
output whose receipts and gas are exactly the pair from
`execute_transactions`, whose requests are the sequence from
`apply_post_execution_changes`, and whose state is the bundle from `finish`. -/
theorem execute_four_stages_in_order
    (s0 s1 s2 s3 : S) (rs : List Rcpt) (g : Nat) (qs : List Req)
    (hc : fac.create input.block input.totalDifficulty = .ok s0)
    (hp : fac.strategy.applyPreExecutionChanges s0 = .ok s1)
    (ht : fac.strategy.executeTransactions s1 input.block = .ok ((rs, g), s2))
    (hq : fac.strategy.applyPostExecutionChanges s2 = .ok (qs, s3)) :
    (GenericBlockExecutor.mk fac cs ec ov).execute input =
      .ok { state := fac.strategy.finish s3, receipts := rs
            requests := qs, gasUsed := g } ∧
    (GenericBlockExecutor.mk (instrumentFactory fac) cs ec ov).execute input =
      .ok { state := (fac.strategy.finish s3,
              [StageEv.create, StageEv.preExec, StageEv.txs, StageEv.postExec,
               StageEv.finishEv])
            receipts := rs, requests := qs, gasUsed := g } := by
  refine ⟨execute_ok fac cs ec ov input s0 s1 s2 s3 rs g qs hc hp ht hq, ?_⟩
  simp [GenericBlockExecutor.execute, instrumentFactory, instrumentStrategy, hc, hp, ht, hq]

/-- Evaluates C1 at a concrete factory and strategy. -/
theorem execute_four_stages_in_order_witness :
    (GenericBlockExecutor.mk natFactory 0 0 natOverlay).execute ⟨1, 2⟩ =
      .ok { state := 30, receipts := [7], requests := [9], gasUsed := 21 } ∧
    (GenericBlockExecutor.mk (instrumentFactory natFactory) 0 0 natOverlay).execute ⟨1, 2⟩ =
      .ok { state := (30,
              [StageEv.create, StageEv.preExec, StageEv.txs, StageEv.postExec,
               StageEv.finishEv])
            receipts := [7], requests := [9], gasUsed := 21 } :=
  execute_four_stages_in_order natFactory 0 0 natOverlay ⟨1, 2⟩ 0 1 2 3 [7] 21 [9]
    rfl rfl rfl rfl

/-- C4: on the success path `execute_with_state_witness` invokes the witness
closure exactly once, with the state reference obtained from the strategy's
`state_ref` after `apply_post_execution_changes` (the log the witness observes
is exactly `create, pre, txs, post`) and strictly before `finish` (no `finish`
event has occurred at the moment of the call, while the returned bundle carries
the full log ending in `finish`); and if strategy creation or any stage fails,
the witness is never invoked (the closure environment is returned untouched,
whatever the closure is). -/
theorem state_witness_called_once_before_finish
    (s0 s1 s2 s3 : S) (rs : List Rcpt) (g : Nat) (qs : List Req)
    (hc : fac.create input.block input.totalDifficulty = .ok s0)
    (hp : fac.strategy.applyPreExecutionChanges s0 = .ok s1)
    (ht : fac.strategy.executeTransactions s1 input.block = .ok ((rs, g), s2))
    (hq : fac.strategy.applyPostExecutionChanges s2 = .ok (qs, s3)) :
    (GenericBlockExecutor.mk (instrumentFactory fac) cs ec ov).executeWithStateWitness input
        (fun es acc => acc ++ [es]) ([] : List (EvmSt × List StageEv)) =
      (.ok { state := (fac.strategy.finish s3,
               [StageEv.create, StageEv.preExec, StageEv.txs, StageEv.postExec,
                StageEv.finishEv])
             receipts := rs, requests := qs, gasUsed := g },
       [(fac.strategy.stateRef s3,
         [StageEv.create, StageEv.preExec, StageEv.txs, StageEv.postExec])]) ∧
    ∀ (W2 : Type)
      (fac2 : BlockExecutionStrategyFactory S Blk Td Rcpt Req EvmSt Bundle Hook P EF ES)
      (input2 : BlockExecutionInput Blk Td) (witness2 : EvmSt → W2 → W2) (w2 : W2) (e : EF),
      ((GenericBlockExecutor.mk fac2 cs ec ov).executeWithStateWitness
        input2 witness2 w2).1 = .error e →
      ((GenericBlockExecutor.mk fac2 cs ec ov).executeWithStateWitness
        input2 witness2 w2).2 = w2 := by
  constructor
  · simp [GenericBlockExecutor.executeWithStateWitness, instrumentFactory, instrumentStrategy,
      hc, hp, ht, hq]
  · intro W2 fac2 input2 witness2 w2 e h
    exact executeWithStateWitness_error_env fac2 cs ec ov input2 witness2 w2 e h

/-- Evaluates C4: on success the witness log records exactly one call made
between the post-execution stage and `finish`; on a creation failure the
closure environment comes back untouched. -/
theorem state_witness_called_once_before_finish_witness :
    (GenericBlockExecutor.mk (instrumentFactory natFactory) 0 0 natOverlay).executeWithStateWitness
        ⟨1, 2⟩ (fun es acc => acc ++ [es]) [] =
      (.ok { state := (30,
               [StageEv.create, StageEv.preExec, StageEv.txs, StageEv.postExec,
                StageEv.finishEv])
             receipts := [7], requests := [9], gasUsed := 21 },
       [(3, [StageEv.create, StageEv.preExec, StageEv.txs, StageEv.postExec])]) ∧
    ((GenericBlockExecutor.mk createFailFactory 0 0 natOverlay).executeWithStateWitness
        ⟨1, 2⟩ (fun s acc => acc + s) 0).2 = 0 := by
  have h := state_witness_called_once_before_finish natFactory 0 0 natOverlay ⟨1, 2⟩
    0 1 2 3 [7] 21 [9] rfl rfl rfl rfl
  exact ⟨h.1, h.2 Nat createFailFactory ⟨1, 2⟩ (fun s acc => acc + s) 0 5 rfl⟩

/-- C5: `execute_with_state_hook` installs the hook via `with_state_hook`
immediately after the strategy is created and strictly before any of the four
stage methods runs: the instrumented event log is exactly
`create, hookInstall, pre, txs, post, finish`. -/
theorem state_hook_installed_before_stages
    (stateHook : Hook) (s0 s1 s2 s3 : S) (rs : List Rcpt) (g : Nat) (qs : List Req)
    (hc : fac.create input.block input.totalDifficulty = .ok s0)
    (hp : fac.strategy.applyPreExecutionChanges
      (fac.strategy.withStateHook (some stateHook) s0) = .ok s1)
    (ht : fac.strategy.executeTransactions s1 input.block = .ok ((rs, g), s2))
    (hq : fac.strategy.applyPostExecutionChanges s2 = .ok (qs, s3)) :
    (GenericBlockExecutor.mk fac cs ec ov).executeWithStateHook input stateHook =
      .ok { state := fac.strategy.finish s3, receipts := rs
            requests := qs, gasUsed := g } ∧
    (GenericBlockExecutor.mk (instrumentFactory fac) cs ec ov).executeWithStateHook
        input stateHook =
      .ok { state := (fac.strategy.finish s3,
              [StageEv.create, StageEv.hookInstall, StageEv.preExec, StageEv.txs,
               StageEv.postExec, StageEv.finishEv])
            receipts := rs, requests := qs, gasUsed := g } := by
  refine ⟨executeWithStateHook_ok fac cs ec ov input stateHook s0 s1 s2 s3 rs g qs
    hc hp ht hq, ?_⟩
  simp [GenericBlockExecutor.executeWithStateHook, instrumentFactory, instrumentStrategy,
    hc, hp, ht, hq]

/-- Evaluates C5 at a concrete factory and strategy. -/
theorem state_hook_installed_before_stages_witness :
    (GenericBlockExecutor.mk natFactory 0 0 natOverlay).executeWithStateHook ⟨1, 2⟩ () =
      .ok { state := 30, receipts := [7], requests := [9], gasUsed := 21 } ∧
    (GenericBlockExecutor.mk (instrumentFactory natFactory) 0 0 natOverlay).executeWithStateHook
        ⟨1, 2⟩ () =
      .ok { state := (30,
              [StageEv.create, StageEv.hookInstall, StageEv.preExec, StageEv.txs,
               StageEv.postExec, StageEv.finishEv])
            receipts := [7], requests := [9], gasUsed := 21 } :=
  state_hook_installed_before_stages natFactory 0 0 natOverlay ⟨1, 2⟩ () 0 1 2 3 [7] 21 [9]
    rfl rfl rfl rfl

/-- C6: in every execution variant (`execute`, `execute_with_state_witness`,
`execute_with_state_hook`) and at every failure point (`create` or any of the
stage methods), the first error aborts the run: the factory's own error (for
`create`) or the converted strategy error (for a stage) is returned, and the
instrumented log of the failing run records no later stage — no stage at all
when `create` fails, and never a `finish` event after a failed stage. -/
theorem first_error_propagates_no_later_stage :
    (∀ (W2 : Type)
       (fac2 : BlockExecutionStrategyFactory S Blk Td Rcpt Req EvmSt Bundle Hook P EF ES)
       (input2 : BlockExecutionInput Blk Td) (witness : EvmSt → W2 → W2) (w : W2)
       (witnessI : EvmSt × List StageEv → W2 → W2) (wI : W2)
       (stateHook : Hook) (e : EF),
       fac2.create input2.block input2.totalDifficulty = .error e →
       (GenericBlockExecutor.mk fac2 cs ec ov).execute input2 = .error e ∧
       (GenericBlockExecutor.mk fac2 cs ec ov).executeWithStateWitness input2 witness w =
         (.error e, w) ∧
       (GenericBlockExecutor.mk fac2 cs ec ov).executeWithStateHook input2 stateHook =
         .error e ∧
       (GenericBlockExecutor.mk (instrumentFactory fac2) cs ec ov).execute input2 =
         .error (e, [StageEv.create]) ∧
       (GenericBlockExecutor.mk (instrumentFactory fac2) cs ec ov).executeWithStateWitness
           input2 witnessI wI =
         (.error (e, [StageEv.create]), wI) ∧
       (GenericBlockExecutor.mk (instrumentFactory fac2) cs ec ov).executeWithStateHook
           input2 stateHook =
         .error (e, [StageEv.create])) ∧
    (∀ (W2 : Type)
       (fac2 : BlockExecutionStrategyFactory S Blk Td Rcpt Req EvmSt Bundle Hook P EF ES)
       (input2 : BlockExecutionInput Blk Td) (witness : EvmSt → W2 → W2) (w : W2)
       (witnessI : EvmSt × List StageEv → W2 → W2) (wI : W2)
       (s0 : S) (e : ES),
       fac2.create input2.block input2.totalDifficulty = .ok s0 →
       fac2.strategy.applyPreExecutionChanges s0 = .error e →
       (GenericBlockExecutor.mk fac2 cs ec ov).execute input2 =
         .error (fac2.fromStrategyError e) ∧
       (GenericBlockExecutor.mk fac2 cs ec ov).executeWithStateWitness input2 witness w =
         (.error (fac2.fromStrategyError e), w) ∧
       (GenericBlockExecutor.mk (instrumentFactory fac2) cs ec ov).execute input2 =
         .error (fac2.fromStrategyError e, [StageEv.create, StageEv.preExec]) ∧
       (GenericBlockExecutor.mk (instrumentFactory fac2) cs ec ov).executeWithStateWitness
           input2 witnessI wI =
         (.error (fac2.fromStrategyError e, [StageEv.create, StageEv.preExec]), wI)) ∧
    (∀ (W2 : Type)
       (fac2 : BlockExecutionStrategyFactory S Blk Td Rcpt Req EvmSt Bundle Hook P EF ES)
       (input2 : BlockExecutionInput Blk Td) (witness : EvmSt → W2 → W2) (w : W2)
       (witnessI : EvmSt × List StageEv → W2 → W2) (wI : W2)
       (s0 s1 : S) (e : ES),
       fac2.create input2.block input2.totalDifficulty = .ok s0 →
       fac2.strategy.applyPreExecutionChanges s0 = .ok s1 →
       fac2.strategy.executeTransactions s1 input2.block = .error e →
       (GenericBlockExecutor.mk fac2 cs ec ov).execute input2 =
         .error (fac2.fromStrategyError e) ∧
       (GenericBlockExecutor.mk fac2 cs ec ov).executeWithStateWitness input2 witness w =
         (.error (fac2.fromStrategyError e), w) ∧
       (GenericBlockExecutor.mk (instrumentFactory fac2) cs ec ov).execute input2 =
         .error (fac2.fromStrategyError e,
           [StageEv.create, StageEv.preExec, StageEv.txs]) ∧
       (GenericBlockExecutor.mk (instrumentFactory fac2) cs ec ov).executeWithStateWitness
           input2 witnessI wI =
         (.error (fac2.fromStrategyError e,
            [StageEv.create, StageEv.preExec, StageEv.txs]), wI)) ∧
    (∀ (W2 : Type)
       (fac2 : BlockExecutionStrategyFactory S Blk Td Rcpt Req EvmSt Bundle Hook P EF ES)
       (input2 : BlockExecutionInput Blk Td) (witness : EvmSt → W2 → W2) (w : W2)
       (witnessI : EvmSt × List StageEv → W2 → W2) (wI : W2)
       (s0 s1 s2 : S) (rs : List Rcpt) (g : Nat) (e : ES),
       fac2.create input2.block input2.totalDifficulty = .ok s0 →
       fac2.strategy.applyPreExecutionChanges s0 = .ok s1 →
       fac2.strategy.executeTransactions s1 input2.block = .ok ((rs, g), s2) →
       fac2.strategy.applyPostExecutionChanges s2 = .error e →
       (GenericBlockExecutor.mk fac2 cs ec ov).execute input2 =
         .error (fac2.fromStrategyError e) ∧
       (GenericBlockExecutor.mk fac2 cs ec ov).executeWithStateWitness input2 witness w =
         (.error (fac2.fromStrategyError e), w) ∧
       (GenericBlockExecutor.mk (instrumentFactory fac2) cs ec ov).execute input2 =
         .error (fac2.fromStrategyError e,
           [StageEv.create, StageEv.preExec, StageEv.txs, StageEv.postExec]) ∧
       (GenericBlockExecutor.mk (instrumentFactory fac2) cs ec ov).executeWithStateWitness
           input2 witnessI wI =
         (.error (fac2.fromStrategyError e,
            [StageEv.create, StageEv.preExec, StageEv.txs, StageEv.postExec]), wI)) ∧
    (∀ (fac2 : BlockExecutionStrategyFactory S Blk Td Rcpt Req EvmSt Bundle Hook P EF ES)
       (input2 : BlockExecutionInput Blk Td) (stateHook : Hook) (s0 : S) (e : ES),
       fac2.create input2.block input2.totalDifficulty = .ok s0 →
       fac2.strategy.applyPreExecutionChanges
         (fac2.strategy.withStateHook (some stateHook) s0) = .error e →
       (GenericBlockExecutor.mk fac2 cs ec ov).executeWithStateHook input2 stateHook =
         .error (fac2.fromStrategyError e) ∧
       (GenericBlockExecutor.mk (instrumentFactory fac2) cs ec ov).executeWithStateHook
           input2 stateHook =
         .error (fac2.fromStrategyError e,
           [StageEv.create, StageEv.hookInstall, StageEv.preExec])) ∧
    (∀ (fac2 : BlockExecutionStrategyFactory S Blk Td Rcpt Req EvmSt Bundle Hook P EF ES)
       (input2 : BlockExecutionInput Blk Td) (stateHook : Hook) (s0 s1 : S) (e : ES),
       fac2.create input2.block input2.totalDifficulty = .ok s0 →
       fac2.strategy.applyPreExecutionChanges
         (fac2.strategy.withStateHook (some stateHook) s0) = .ok s1 →
       fac2.strategy.executeTransactions s1 input2.block = .error e →
       (GenericBlockExecutor.mk fac2 cs ec ov).executeWithStateHook input2 stateHook =
         .error (fac2.fromStrategyError e) ∧
       (GenericBlockExecutor.mk (instrumentFactory fac2) cs ec ov).executeWithStateHook
           input2 stateHook =
         .error (fac2.fromStrategyError e,
           [StageEv.create, StageEv.hookInstall, StageEv.preExec, StageEv.txs])) ∧
    (∀ (fac2 : BlockExecutionStrategyFactory S Blk Td Rcpt Req EvmSt Bundle Hook P EF ES)
       (input2 : BlockExecutionInput Blk Td) (stateHook : Hook) (s0 s1 s2 : S)
       (rs : List Rcpt) (g : Nat) (e : ES),
       fac2.create input2.block input2.totalDifficulty = .ok s0 →
       fac2.strategy.applyPreExecutionChanges
         (fac2.strategy.withStateHook (some stateHook) s0) = .ok s1 →
       fac2.strategy.executeTransactions s1 input2.block = .ok ((rs, g), s2) →
       fac2.strategy.applyPostExecutionChanges s2 = .error e →
       (GenericBlockExecutor.mk fac2 cs ec ov).executeWithStateHook input2 stateHook =
         .error (fac2.fromStrategyError e) ∧
       (GenericBlockExecutor.mk (instrumentFactory fac2) cs ec ov).executeWithStateHook
           input2 stateHook =
         .error (fac2.fromStrategyError e,
           [StageEv.create, StageEv.hookInstall, StageEv.preExec, StageEv.txs,
            StageEv.postExec])) := by
  refine ⟨?_, ?_, ?_, ?_, ?_, ?_, ?_⟩
  · intro W2 fac2 input2 witness w witnessI wI stateHook e hc
    refine ⟨execute_err_create fac2 cs ec ov input2 e hc,
      executeWithStateWitness_err_create fac2 cs ec ov input2 witness w e hc,
      executeWithStateHook_err_create fac2 cs ec ov input2 stateHook e hc, ?_, ?_, ?_⟩
    · simp [GenericBlockExecutor.execute, instrumentFactory, instrumentStrategy, hc]
    · simp [GenericBlockExecutor.executeWithStateWitness, instrumentFactory,
        instrumentStrategy, hc]
    · simp [GenericBlockExecutor.executeWithStateHook, instrumentFactory,
        instrumentStrategy, hc]
  · intro W2 fac2 input2 witness w witnessI wI s0 e hc hp
    refine ⟨execute_err_pre fac2 cs ec ov input2 s0 e hc hp,
      executeWithStateWitness_err_pre fac2 cs ec ov input2 witness w s0 e hc hp, ?_, ?_⟩
    · simp [GenericBlockExecutor.execute, instrumentFactory, instrumentStrategy, hc, hp]
    · simp [GenericBlockExecutor.executeWithStateWitness, instrumentFactory,
        instrumentStrategy, hc, hp]
  · intro W2 fac2 input2 witness w witnessI wI s0 s1 e hc hp ht
    refine ⟨execute_err_txs fac2 cs ec ov input2 s0 s1 e hc hp ht,
      executeWithStateWitness_err_txs fac2 cs ec ov input2 witness w s0 s1 e hc hp ht,
      ?_, ?_⟩
    · simp [GenericBlockExecutor.execute, instrumentFactory, instrumentStrategy, hc, hp, ht]
    · simp [GenericBlockExecutor.executeWithStateWitness, instrumentFactory,
        instrumentStrategy, hc, hp, ht]
  · intro W2 fac2 input2 witness w witnessI wI s0 s1 s2 rs g e hc hp ht hq
    refine ⟨execute_err_post fac2 cs ec ov input2 s0 s1 s2 rs g e hc hp ht hq,
      executeWithStateWitness_err_post fac2 cs ec ov input2 witness w s0 s1 s2 rs g e
        hc hp ht hq, ?_, ?_⟩
    · simp [GenericBlockExecutor.execute, instrumentFactory, instrumentStrategy,
        hc, hp, ht, hq]
    · simp [GenericBlockExecutor.executeWithStateWitness, instrumentFactory,
        instrumentStrategy, hc, hp, ht, hq]
  · intro fac2 input2 stateHook s0 e hc hp
    refine ⟨executeWithStateHook_err_pre fac2 cs ec ov input2 stateHook s0 e hc hp, ?_⟩
    simp [GenericBlockExecutor.executeWithStateHook, instrumentFactory, instrumentStrategy,
      hc, hp]
  · intro fac2 input2 stateHook s0 s1 e hc hp ht
    refine ⟨executeWithStateHook_err_txs fac2 cs ec ov input2 stateHook s0 s1 e hc hp ht, ?_⟩
    simp [GenericBlockExecutor.executeWithStateHook, instrumentFactory, instrumentStrategy,
      hc, hp, ht]
  · intro fac2 input2 stateHook s0 s1 s2 rs g e hc hp ht hq
    refine ⟨executeWithStateHook_err_post fac2 cs ec ov input2 stateHook s0 s1 s2 rs g e
      hc hp ht hq, ?_⟩
    simp [GenericBlockExecutor.executeWithStateHook, instrumentFactory, instrumentStrategy,
      hc, hp, ht, hq]

/-- Evaluates C6 at concrete factories failing at each point: creation failure
(error `5`), pre-execution failure (`3`, converted to `203`), transaction
failure (`4`, converted to `204`), post-execution failure (`6`, converted to
`206`) — each exercised in the plain and instrumented variants, including the
hook variant at every stage failure. -/
theorem first_error_propagates_no_later_stage_witness :
    ((GenericBlockExecutor.mk createFailFactory 0 0 natOverlay).execute ⟨1, 2⟩ =
        .error 5 ∧
      (GenericBlockExecutor.mk createFailFactory 0 0 natOverlay).executeWithStateWitness
        ⟨1, 2⟩ (fun _s acc => acc + 1) 0 = (.error 5, 0) ∧
      (GenericBlockExecutor.mk createFailFactory 0 0 natOverlay).executeWithStateHook
        ⟨1, 2⟩ () = .error 5 ∧
      (GenericBlockExecutor.mk (instrumentFactory createFailFactory) 0 0 natOverlay).execute
        ⟨1, 2⟩ = .error (5, [StageEv.create]) ∧
      (GenericBlockExecutor.mk (instrumentFactory createFailFactory) 0 0
          natOverlay).executeWithStateWitness ⟨1, 2⟩ (fun _es acc => acc + 1) 0 =
        (.error (5, [StageEv.create]), 0) ∧
      (GenericBlockExecutor.mk (instrumentFactory createFailFactory) 0 0
          natOverlay).executeWithStateHook ⟨1, 2⟩ () = .error (5, [StageEv.create])) ∧
    ((GenericBlockExecutor.mk preFailFactory 0 0 natOverlay).execute ⟨1, 2⟩ =
        .error 203 ∧
      (GenericBlockExecutor.mk preFailFactory 0 0 natOverlay).executeWithStateWitness
        ⟨1, 2⟩ (fun _s acc => acc + 1) 0 = (.error 203, 0) ∧
      (GenericBlockExecutor.mk (instrumentFactory preFailFactory) 0 0 natOverlay).execute
        ⟨1, 2⟩ = .error (203, [StageEv.create, StageEv.preExec]) ∧
      (GenericBlockExecutor.mk (instrumentFactory preFailFactory) 0 0
          natOverlay).executeWithStateWitness ⟨1, 2⟩ (fun _es acc => acc + 1) 0 =
        (.error (203, [StageEv.create, StageEv.preExec]), 0)) ∧
    ((GenericBlockExecutor.mk txsFailFactory 0 0 natOverlay).execute ⟨1, 2⟩ =
        .error 204 ∧
      (GenericBlockExecutor.mk txsFailFactory 0 0 natOverlay).executeWithStateWitness
        ⟨1, 2⟩ (fun _s acc => acc + 1) 0 = (.error 204, 0) ∧
      (GenericBlockExecutor.mk (instrumentFactory txsFailFactory) 0 0 natOverlay).execute
        ⟨1, 2⟩ = .error (204, [StageEv.create, StageEv.preExec, StageEv.txs]) ∧
      (GenericBlockExecutor.mk (instrumentFactory txsFailFactory) 0 0
          natOverlay).executeWithStateWitness ⟨1, 2⟩ (fun _es acc => acc + 1) 0 =
        (.error (204, [StageEv.create, StageEv.preExec, StageEv.txs]), 0)) ∧
    ((GenericBlockExecutor.mk postFailFactory 0 0 natOverlay).execute ⟨1, 2⟩ =
        .error 206 ∧
      (GenericBlockExecutor.mk postFailFactory 0 0 natOverlay).executeWithStateWitness
        ⟨1, 2⟩ (fun _s acc => acc + 1) 0 = (.error 206, 0) ∧
      (GenericBlockExecutor.mk (instrumentFactory postFailFactory) 0 0 natOverlay).execute
        ⟨1, 2⟩ =
        .error (206, [StageEv.create, StageEv.preExec, StageEv.txs, StageEv.postExec]) ∧
      (GenericBlockExecutor.mk (instrumentFactory postFailFactory) 0 0
          natOverlay).executeWithStateWitness ⟨1, 2⟩ (fun _es acc => acc + 1) 0 =
        (.error (206, [StageEv.create, StageEv.preExec, StageEv.txs, StageEv.postExec]),
         0)) ∧
    ((GenericBlockExecutor.mk preFailFactory 0 0 natOverlay).executeWithStateHook
        ⟨1, 2⟩ () = .error 203 ∧
      (GenericBlockExecutor.mk (instrumentFactory preFailFactory) 0 0 natOverlay).executeWithStateHook
        ⟨1, 2⟩ () =
        .error (203, [StageEv.create, StageEv.hookInstall, StageEv.preExec])) ∧
    ((GenericBlockExecutor.mk txsFailFactory 0 0 natOverlay).executeWithStateHook
        ⟨1, 2⟩ () = .error 204 ∧
      (GenericBlockExecutor.mk (instrumentFactory txsFailFactory) 0 0 natOverlay).executeWithStateHook
        ⟨1, 2⟩ () =
        .error (204,
          [StageEv.create, StageEv.hookInstall, StageEv.preExec, StageEv.txs])) ∧
    ((GenericBlockExecutor.mk postFailFactory 0 0 natOverlay).executeWithStateHook
        ⟨1, 2⟩ () = .error 206 ∧
      (GenericBlockExecutor.mk (instrumentFactory postFailFactory) 0 0 natOverlay).executeWithStateHook
        ⟨1, 2⟩ () =
        .error (206,
          [StageEv.create, StageEv.hookInstall, StageEv.preExec, StageEv.txs,
           StageEv.postExec])) := by
  refine ⟨?_, ?_, ?_, ?_, ?_, ?_, ?_⟩
  · exact (first_error_propagates_no_later_stage 0 0 natOverlay).1 Nat createFailFactory
      ⟨1, 2⟩ (fun _s acc => acc + 1) 0 (fun _es acc => acc + 1) 0 () 5 rfl
  · exact (first_error_propagates_no_later_stage 0 0 natOverlay).2.1 Nat preFailFactory
      ⟨1, 2⟩ (fun _s acc => acc + 1) 0 (fun _es acc => acc + 1) 0 0 3 rfl rfl
  · exact (first_error_propagates_no_later_stage 0 0 natOverlay).2.2.1 Nat txsFailFactory
      ⟨1, 2⟩ (fun _s acc => acc + 1) 0 (fun _es acc => acc + 1) 0 0 1 4 rfl rfl rfl
  · exact (first_error_propagates_no_later_stage 0 0 natOverlay).2.2.2.1 Nat postFailFactory
      ⟨1, 2⟩ (fun _s acc => acc + 1) 0 (fun _es acc => acc + 1) 0 0 1 2 [7] 21 6
      rfl rfl rfl rfl
  · exact (first_error_propagates_no_later_stage 0 0 natOverlay).2.2.2.2.1 preFailFactory
      ⟨1, 2⟩ () 0 3 rfl rfl
  · exact (first_error_propagates_no_later_stage 0 0 natOverlay).2.2.2.2.2.1 txsFailFactory
      ⟨1, 2⟩ () 0 1 4 rfl rfl rfl
  · exact (first_error_propagates_no_later_stage 0 0 natOverlay).2.2.2.2.2.2 postFailFactory
      ⟨1, 2⟩ () 0 1 2 [7] 21 6 rfl rfl rfl rfl

end RethExecute
